import Mathlib

/-!
Verification of `examples/cloudwatch_metrics.go`.

A shallow embedding of the metrics publisher (`CloudWatchMetrics`, its two
publish methods, `ExampleUsage`) and of the engagement calculator
(`CalculateEngagement`).

* Go `float64` is embedded as IEEE 754 binary64 with round-to-nearest-even:
  sign, integer significand and binary exponent, plus infinities and NaN.
* Go `int` is embedded as `Int`; the code performs no integer arithmetic on it,
  only the conversion `float64(n)`.
* The AWS SDK client, the session loader, the clock and the formatting verbs of
  `fmt` are external to the repository; they are parameters (`Env`).
* Effects are explicit: a `World` records the clock readings the program takes,
  the inputs of its `PutMetricData` calls, the HTTP requests the SDK sends for
  them and the entries the standard logger writes.
-/

namespace CloudwatchMetrics

/-! ## float64 -/

/-- IEEE 754 binary64 values. `fin neg m e` is `(-1)^neg * m * 2^e`; the
canonical forms are `2^52 ≤ m < 2^53` with `-1074 ≤ e ≤ 971` (normal) and
`m < 2^52` with `e = -1074` (subnormal and zero). All NaNs are identified. -/
inductive Float64 where
  | nan : Float64
  | inf (neg : Bool) : Float64
  | fin (neg : Bool) (m : Nat) (e : Int) : Float64
deriving DecidableEq, Repr

namespace Float64

/-- Smallest exponent of the significand's unit: subnormals are multiples of `2^-1074`. -/
def eMin : Int := -1074

/-- Largest exponent of the significand's unit: `(2^53 - 1) * 2^971` is the largest finite value. -/
def eMax : Int := 971

/-- Signed zero. -/
def zero (neg : Bool) : Float64 := fin neg 0 eMin

/-- Test `2^c ≤ n / d` for `d > 0`. -/
def pow2Le (c : Int) (n d : Nat) : Bool :=
  if 0 ≤ c then decide (d * 2 ^ c.toNat ≤ n) else decide (d ≤ n * 2 ^ (-c).toNat)

/-- Position of the leading bit, `floor (log2 n)` for `n > 0`, by halving at most `fuel` times. -/
def log2Fuel : Nat → Nat → Nat
  | 0, _ => 0
  | fuel + 1, n => if 2 ≤ n then log2Fuel fuel (n / 2) + 1 else 0

/-- The value `floor (log2 n)` for `n > 0`; `n` halvings always suffice. -/
def log2 (n : Nat) : Nat := log2Fuel n n

/-- The value `floor (log2 (n / d))` for `n, d > 0`. -/
def floorLog2 (n d : Nat) : Int :=
  let c : Int := (log2 n : Int) - (log2 d : Int)
  if pow2Le c n d then c else c - 1

/-- Round-to-nearest, ties-to-even, of the quotient `n / d` to an integer. -/
def rneDiv (n d : Nat) : Nat :=
  let q := n / d
  let r := n % d
  if 2 * r < d then q
  else if d < 2 * r then q + 1
  else if q % 2 = 0 then q else q + 1

/-- Round the exact rational `(-1)^neg * n / d` (`d > 0`) to the nearest binary64
value, ties to even, overflowing to infinity. -/
def round (neg : Bool) (n d : Nat) : Float64 :=
  if n = 0 then zero neg
  else
    let ex : Int := max (floorLog2 n d - 52) eMin
    let m : Nat :=
      if 0 ≤ ex then rneDiv n (d * 2 ^ ex.toNat) else rneDiv (n * 2 ^ (-ex).toNat) d
    let (m, ex) := if m = 2 ^ 53 then (2 ^ 52, ex + 1) else (m, ex)
    if eMax < ex then inf neg else fin neg m ex

/-- The conversion `float64(n)` of an integer. -/
def ofInt (n : Int) : Float64 := round (decide (n < 0)) n.natAbs 1

/-- Exact quotient of two finite magnitudes `m₁ * 2^e₁ / (m₂ * 2^e₂)`, rounded. -/
def divFin (neg : Bool) (m₁ : Nat) (e₁ : Int) (m₂ : Nat) (e₂ : Int) : Float64 :=
  let k : Int := e₁ - e₂
  if 0 ≤ k then round neg (m₁ * 2 ^ k.toNat) m₂ else round neg m₁ (m₂ * 2 ^ (-k).toNat)

/-- Exact product of two finite magnitudes, rounded. -/
def mulFin (neg : Bool) (m₁ : Nat) (e₁ : Int) (m₂ : Nat) (e₂ : Int) : Float64 :=
  let k : Int := e₁ + e₂
  if 0 ≤ k then round neg (m₁ * m₂ * 2 ^ k.toNat) 1 else round neg (m₁ * m₂) (2 ^ (-k).toNat)

/-- The operator `/` on float64: no run-time panic, IEEE 754 special cases. -/
def div : Float64 → Float64 → Float64
  | nan, _ => nan
  | _, nan => nan
  | inf _, inf _ => nan
  | inf s, fin t _ _ => inf (xor s t)
  | fin s _ _, inf t => zero (xor s t)
  | fin s m₁ e₁, fin t m₂ e₂ =>
    if m₂ = 0 then (if m₁ = 0 then nan else inf (xor s t))
    else divFin (xor s t) m₁ e₁ m₂ e₂

/-- The operator `*` on float64. -/
def mul : Float64 → Float64 → Float64
  | nan, _ => nan
  | _, nan => nan
  | inf s, inf t => inf (xor s t)
  | inf s, fin t m _ => if m = 0 then nan else inf (xor s t)
  | fin s m _, inf t => if m = 0 then nan else inf (xor s t)
  | fin s m₁ e₁, fin t m₂ e₂ => mulFin (xor s t) m₁ e₁ m₂ e₂

/-- The value is NaN. -/
def isNaN : Float64 → Bool
  | nan => true
  | _ => false

/-- The value compares equal to `0` (either signed zero). -/
def isZero : Float64 → Bool
  | fin _ 0 _ => true
  | _ => false

/-- The exact rational denoted by a finite value; `none` for NaN and infinities. -/
def toRat? : Float64 → Option ℚ
  | fin neg m e => some ((if neg then -1 else 1) * (m : ℚ) * (2 : ℚ) ^ e)
  | _ => none

end Float64

/-! ## CalculateEngagement -/

/-- A `time.Duration`: a count of nanoseconds. -/
abbrev Duration := Int

/-- The constant `time.Hour`. -/
def Hour : Duration := 3600000000000

/-- The six data-retrieval functions `CalculateEngagement` calls. -/
structure DataSources where
  getActiveSessionsLastHour : Int
  getDailyActiveUsers : Int
  getUsersWithActions : List String → Int
  getTotalActiveUsers : Int
  getReturningUsers : Duration → Int
  getTotalUsers : Int

/-- The placeholder functions of the source: each returns 0. -/
def placeholders : DataSources where
  getActiveSessionsLastHour := 0
  getDailyActiveUsers := 0
  getUsersWithActions := fun _ => 0
  getTotalActiveUsers := 0
  getReturningUsers := fun _ => 0
  getTotalUsers := 0

/-- The body of `CalculateEngagement`, over given data-retrieval functions. -/
def CalculateEngagementWith (src : DataSources) (method : String) : Float64 :=
  if method = "session_based" then
    let activeSessions := src.getActiveSessionsLastHour
    let dailyActiveUsers := src.getDailyActiveUsers
    Float64.mul (Float64.div (Float64.ofInt activeSessions) (Float64.ofInt dailyActiveUsers))
      (Float64.ofInt 100)
  else if method = "activity_based" then
    let engagedUsers := src.getUsersWithActions
      ["submitted_feedback", "created_profile", "uploaded_content"]
    let totalUsers := src.getTotalActiveUsers
    Float64.mul (Float64.div (Float64.ofInt engagedUsers) (Float64.ofInt totalUsers))
      (Float64.ofInt 100)
  else if method = "retention_based" then
    let returningUsers := src.getReturningUsers (7 * 24 * Hour)
    let totalUsers := src.getTotalUsers
    Float64.mul (Float64.div (Float64.ofInt returningUsers) (Float64.ofInt totalUsers))
      (Float64.ofInt 100)
  else
    Float64.ofInt 0

/-- `CalculateEngagement` as it stands in the source, over the placeholder functions. -/
def CalculateEngagement (method : String) : Float64 :=
  CalculateEngagementWith placeholders method

/-! ## The metrics publisher -/

/-- A `time.Time` instant, as nanoseconds since the epoch. -/
abbrev Time := Int

/-- A `cloudwatch.MetricDatum`, restricted to the four pointer fields the source
sets; the remaining fields of the SDK type keep their zero value. -/
structure MetricDatum where
  MetricName : Option String
  Value : Option Float64
  Unit : Option String
  Timestamp : Option Time
deriving DecidableEq, Repr

/-- A `cloudwatch.PutMetricDataInput`. -/
structure PutMetricDataInput where
  Namespace : Option String
  MetricData : List MetricDatum
deriving DecidableEq, Repr

/-- A `session.Session`, an opaque token of the SDK. -/
structure Session where
  id : Nat
deriving DecidableEq, Repr

/-- A `cloudwatch.CloudWatch` client: the result of `cloudwatch.New(sess)`. -/
structure CloudWatch where
  sess : Session
deriving DecidableEq, Repr

/-- CloudWatchMetrics handles custom metric publishing. -/
structure CloudWatchMetrics where
  client : CloudWatch
  «namespace» : String
deriving DecidableEq, Repr

/-- The local date and time the standard logger reads for an entry: the results
of `t.Date()` and `t.Clock()`. -/
structure DateTime where
  year : Nat
  month : Nat
  day : Nat
  hour : Nat
  min : Nat
  sec : Nat
deriving DecidableEq, Repr

/-- What the program does not define: the SDK, the clock, `fmt` and the clock of
the logger. The error type `ε` stands for the values of Go's `error` interface.

* `newSession` is the result of `session.NewSession()`;
* `respond c sent input` is the error result of `c.PutMetricData(input)` when
  `sent` are the inputs of the calls made before it (`none` is a nil error);
* `attempts c sent input` is the number of HTTP requests the SDK sends to the
  service during that call: the client of the source is built with the default
  configuration, whose retryer sends a request again after a retryable failure;
* `clock i` is what the `i`-th call of `time.Now()` by the program returns;
* `errorText` renders an error under the verb `%v`, `fmtFloat2` renders a
  float64 under the verb `%.2f`;
* `logTime i` is the local date and time the standard logger reads when it
  writes its `i`-th entry. -/
structure Env (ε : Type) where
  newSession : Except ε Session
  respond : CloudWatch → List PutMetricDataInput → PutMetricDataInput → Option ε
  attempts : CloudWatch → List PutMetricDataInput → PutMetricDataInput → Nat
  clock : Nat → Time
  errorText : ε → String
  fmtFloat2 : Float64 → String
  logTime : Nat → DateTime

/-- The effects of a run so far: how many clock readings the program took, the
inputs of the `PutMetricData` calls it made (oldest first), how many HTTP
requests the SDK sent to the service during those calls, and the entries the
standard logger wrote, one per call of `log.Printf`. -/
structure World where
  reads : Nat
  sent : List PutMetricDataInput
  httpRequests : Nat
  logs : List String
deriving DecidableEq, Repr

/-- The call `time.Now()`. -/
def timeNow {ε : Type} (env : Env ε) (w : World) : Time × World :=
  (env.clock w.reads, { w with reads := w.reads + 1 })

/-- The call `c.PutMetricData(input)`: one call of the SDK operation, during
which the SDK sends `env.attempts` HTTP requests. -/
def PutMetricData {ε : Type} (env : Env ε) (c : CloudWatch) (input : PutMetricDataInput)
    (w : World) : Option ε × World :=
  (env.respond c w.sent input,
    { w with
      sent := w.sent ++ [input]
      httpRequests := w.httpRequests + env.attempts c w.sent input })

/-- The loop of `itoa` in package `log`: the decimal digits of `i`, least
significant first, padded with zeros to `wid` digits; `room` is what is left of
the 20-byte buffer. -/
def itoaLoop : Nat → Nat → Int → List Char → List Char
  | 0, i, _, acc => Char.ofNat ('0'.toNat + i % 10) :: acc
  | room + 1, i, wid, acc =>
    if 10 ≤ i ∨ 1 < wid then
      itoaLoop room (i / 10) (wid - 1) (Char.ofNat ('0'.toNat + (i - i / 10 * 10)) :: acc)
    else
      Char.ofNat ('0'.toNat + i) :: acc

/-- The function `itoa` of package `log`: fixed-width decimal ASCII. -/
def itoa (i : Nat) (wid : Int) : String :=
  String.mk (itoaLoop 19 i wid [])

/-- The function `formatHeader` of package `log` under the flags of the standard
logger, `LstdFlags = Ldate | Ltime`, and its empty prefix: `2006/01/02 15:04:05 `. -/
def formatHeader (t : DateTime) : String :=
  itoa t.year 4 ++ "/" ++ itoa t.month 2 ++ "/" ++ itoa t.day 2 ++ " "
    ++ itoa t.hour 2 ++ ":" ++ itoa t.min 2 ++ ":" ++ itoa t.sec 2 ++ " "

/-- The end of `Logger.Output`: a newline is added unless the message ends in one. -/
def terminated (s : String) : String :=
  if s.data.getLast? = some '\n' then s else s ++ "\n"

/-- The call `log.Printf(...)`, given the formatted message. The source leaves
the standard logger as it is, so the entry written is the date and time header,
the message, and a newline if the message does not end in one. -/
def logPrintf {ε : Type} (env : Env ε) (msg : String) (w : World) : World :=
  { w with logs := w.logs ++ [formatHeader (env.logTime w.logs.length) ++ terminated msg] }

/-- NewCloudWatchMetrics creates a new metrics client. `session.Must` panics on
the error of `session.NewSession()`; the panic is the `error` result. -/
def NewCloudWatchMetrics {ε : Type} (env : Env ε) («namespace» : String) :
    Except ε CloudWatchMetrics :=
  match env.newSession with
  | .error e => .error e
  | .ok sess => .ok { client := { sess := sess }, «namespace» := «namespace» }

/-- PublishUserEngagement sends user engagement metrics to CloudWatch. The
result is the returned error, the receiver after the call and the world after
the call. -/
def PublishUserEngagement {ε : Type} (env : Env ε) (m : CloudWatchMetrics)
    (engagementRate : Float64) (w : World) : Option ε × CloudWatchMetrics × World :=
  let (now, w) := timeNow env w
  let (err, w) := PutMetricData env m.client
    { Namespace := some m.«namespace»
      MetricData := [
        { MetricName := some "UserEngagement"
          Value := some engagementRate
          Unit := some "Percent"
          Timestamp := some now }] } w
  match err with
  | some e =>
    (some e, m, logPrintf env ("Failed to publish user engagement metric: " ++ env.errorText e) w)
  | none =>
    (none, m, logPrintf env ("Published user engagement: " ++ env.fmtFloat2 engagementRate ++ "%") w)

/-- PublishActiveSessions sends active session count to CloudWatch. -/
def PublishActiveSessions {ε : Type} (env : Env ε) (m : CloudWatchMetrics)
    (sessionCount : Int) (w : World) : Option ε × CloudWatchMetrics × World :=
  let (now, w) := timeNow env w
  let (err, w) := PutMetricData env m.client
    { Namespace := some m.«namespace»
      MetricData := [
        { MetricName := some "ActiveSessions"
          Value := some (Float64.ofInt sessionCount)
          Unit := some "Count"
          Timestamp := some now }] } w
  match err with
  | some e =>
    (some e, m, logPrintf env ("Failed to publish active sessions metric: " ++ env.errorText e) w)
  | none =>
    (none, m, logPrintf env ("Published active sessions: " ++ toString sessionCount) w)

/-- Example usage in your application. Both publish results are dropped; the
result is the world after the run, or the panic of the constructor. -/
def ExampleUsage {ε : Type} (env : Env ε) (w : World) : Except ε World :=
  let «namespace» := "AmygdalaBeta/Staging"
  match NewCloudWatchMetrics env «namespace» with
  | .error e => .error e
  | .ok metrics =>
    let totalUsers : Int := 1000
    let activeUsers : Int := 450
    let engagementRate :=
      Float64.mul (Float64.div (Float64.ofInt activeUsers) (Float64.ofInt totalUsers))
        (Float64.ofInt 100)
    let (_, metrics, w) := PublishUserEngagement env metrics engagementRate w
    let (_, _, w) := PublishActiveSessions env metrics activeUsers w
    .ok w

/-! ## Sequences of publish calls -/

/-- One call of a publish method, with its argument. -/
inductive Call where
  | userEngagement (engagementRate : Float64) : Call
  | activeSessions (sessionCount : Int) : Call
deriving DecidableEq, Repr

/-- Perform one call on the publisher. -/
def Call.run {ε : Type} (env : Env ε) (m : CloudWatchMetrics) (c : Call) (w : World) :
    Option ε × CloudWatchMetrics × World :=
  match c with
  | .userEngagement r => PublishUserEngagement env m r w
  | .activeSessions n => PublishActiveSessions env m n w

/-- The request a call builds from the publisher's namespace, its argument and
the clock reading. -/
def Call.request (ns : String) (c : Call) (now : Time) : PutMetricDataInput :=
  match c with
  | .userEngagement r =>
    { Namespace := some ns
      MetricData := [
        { MetricName := some "UserEngagement", Value := some r
          Unit := some "Percent", Timestamp := some now }] }
  | .activeSessions n =>
    { Namespace := some ns
      MetricData := [
        { MetricName := some "ActiveSessions", Value := some (Float64.ofInt n)
          Unit := some "Count", Timestamp := some now }] }

/-- Perform the calls in order on the same publisher, collecting the returned errors. -/
def runCalls {ε : Type} (env : Env ε) (m : CloudWatchMetrics) :
    List Call → World → List (Option ε) × CloudWatchMetrics × World
  | [], w => ([], m, w)
  | c :: cs, w =>
    let (err, m₁, w₁) := Call.run env m c w
    let (errs, m₂, w₂) := runCalls env m₁ cs w₁
    (err :: errs, m₂, w₂)

/-- The requests a sequence of calls builds, the first one stamped with clock reading `k`. -/
def requestsFrom {ε : Type} (env : Env ε) (ns : String) : Nat → List Call → List PutMetricDataInput
  | _, [] => []
  | k, c :: cs => Call.request ns c (env.clock k) :: requestsFrom env ns (k + 1) cs

/-! ## Sample environments -/

/-- A sample environment: the session is established, the first call of
`PutMetricData` fails with a throttling error after the default retryer has sent
the request four times, the later calls succeed at the first request, the clock
advances by one nanosecond per reading, an error is its own text, and the logger
reads 14 November 2023, 22:13:20. -/
def flakyEnv : Env String where
  newSession := .ok { id := 0 }
  respond := fun _ sent _ => if sent.length = 0 then some "Throttling" else none
  attempts := fun _ sent _ => if sent.length = 0 then 4 else 1
  clock := fun i => 1700000000000000000 + (i : Int)
  errorText := fun e => e
  fmtFloat2 := fun _ => "45.00"
  logTime := fun _ =>
    { year := 2023, month := 11, day := 14, hour := 22, min := 13, sec := 20 }

/-- The world before anything has happened. -/
def World.initial : World := { reads := 0, sent := [], httpRequests := 0, logs := [] }

/-! ## Properties of the publish methods -/

/-- What one call does: the returned error is the backend's answer to the one
request it submits, the receiver is returned as it was, one clock reading is
taken and one request is appended. -/
theorem Call.run_spec {ε : Type} (env : Env ε) (m : CloudWatchMetrics) (c : Call) (w : World) :
    (Call.run env m c w).1
        = env.respond m.client w.sent (Call.request m.«namespace» c (env.clock w.reads))
      ∧ (Call.run env m c w).2.1 = m
      ∧ (Call.run env m c w).2.2.reads = w.reads + 1
      ∧ (Call.run env m c w).2.2.sent
          = w.sent ++ [Call.request m.«namespace» c (env.clock w.reads)] := by
  cases c with
  | userEngagement r =>
    simp only [Call.run, PublishUserEngagement, timeNow, PutMetricData, logPrintf, Call.request]
    split <;> simp_all
  | activeSessions n =>
    simp only [Call.run, PublishActiveSessions, timeNow, PutMetricData, logPrintf, Call.request]
    split <;> simp_all

/-- Every request built by `requestsFrom` carries the given namespace. -/
theorem requestsFrom_namespace {ε : Type} (env : Env ε) (ns : String) (cs : List Call) :
    ∀ (k : Nat), ∀ r ∈ requestsFrom env ns k cs, r.Namespace = some ns := by
  induction cs with
  | nil => intro k r hr; simp [requestsFrom] at hr
  | cons c cs ih =>
    intro k r hr
    simp only [requestsFrom, List.mem_cons] at hr
    rcases hr with rfl | hr
    · cases c <;> rfl
    · exact ih (k + 1) r hr

/-- The list built by `requestsFrom` has one request per call. -/
theorem requestsFrom_length {ε : Type} (env : Env ε) (ns : String) (cs : List Call) :
    ∀ (k : Nat), (requestsFrom env ns k cs).length = cs.length := by
  induction cs with
  | nil => intro k; rfl
  | cons c cs ih => intro k; simp [requestsFrom, ih (k + 1)]

/-- A sequence of calls leaves the publisher as it was, takes one clock reading
per call and submits exactly the requests of `requestsFrom`. -/
theorem runCalls_spec {ε : Type} (env : Env ε) (m : CloudWatchMetrics) (cs : List Call) :
    ∀ (w : World),
      (runCalls env m cs w).2.1 = m
        ∧ (runCalls env m cs w).2.2.reads = w.reads + cs.length
        ∧ (runCalls env m cs w).2.2.sent = w.sent ++ requestsFrom env m.«namespace» w.reads cs
        ∧ (runCalls env m cs w).1.length = cs.length := by
  induction cs with
  | nil => intro w; simp [runCalls, requestsFrom]
  | cons c cs ih =>
    intro w
    obtain ⟨_, hm, hr, hs⟩ := Call.run_spec env m c w
    have ih₁ := ih (Call.run env m c w).2.2
    simp only [runCalls, hm]
    obtain ⟨h₁, h₂, h₃, h₄⟩ := ih₁
    refine ⟨h₁, ?_, ?_, ?_⟩
    · rw [h₂, hr, List.length_cons]; omega
    · rw [h₃, hs, hr, requestsFrom, List.append_assoc]; rfl
    · simp [h₄]

/-! ## Checks of the float64 model -/

/-- With enough fuel, `log2Fuel` brackets its argument between two consecutive powers of 2. -/
theorem Float64.log2Fuel_bounds (fuel : Nat) :
    ∀ (n : Nat), n ≤ fuel → 0 < n →
      2 ^ Float64.log2Fuel fuel n ≤ n ∧ n < 2 ^ (Float64.log2Fuel fuel n + 1) := by
  induction fuel with
  | zero => intro n hn hpos; omega
  | succ fuel ih =>
    intro n hn hpos
    by_cases h2 : 2 ≤ n
    · have hdiv : n / 2 ≤ fuel := by omega
      have hpos' : 0 < n / 2 := by omega
      obtain ⟨hlo, hhi⟩ := ih (n / 2) hdiv hpos'
      simp only [Float64.log2Fuel, h2, if_true]
      constructor
      · rw [Nat.pow_succ]; omega
      · rw [Nat.pow_succ]; omega
    · simp only [Float64.log2Fuel, h2, if_false]
      constructor <;> simp <;> omega

/-- The value `log2 n` is the position of the leading bit of `n > 0`. -/
theorem Float64.log2_bounds (n : Nat) (hpos : 0 < n) :
    2 ^ Float64.log2 n ≤ n ∧ n < 2 ^ (Float64.log2 n + 1) :=
  Float64.log2Fuel_bounds n n (Nat.le_refl n) hpos

/-- Known binary64 values: 1, -2, 1/3 (0x3FD5555555555555), 0.1
(0x3FB999999999999A), a tie rounded to even, and the special cases of division. -/
theorem Float64.model_checks :
    Float64.ofInt 1 = Float64.fin false 4503599627370496 (-52)
      ∧ Float64.ofInt (-2) = Float64.fin true 4503599627370496 (-51)
      ∧ Float64.div (Float64.ofInt 1) (Float64.ofInt 3) = Float64.fin false 6004799503160661 (-54)
      ∧ Float64.div (Float64.ofInt 1) (Float64.ofInt 10) = Float64.fin false 7205759403792794 (-56)
      ∧ Float64.ofInt 9007199254740993 = Float64.fin false 4503599627370496 1
      ∧ Float64.ofInt 9007199254740995 = Float64.fin false 4503599627370498 1
      ∧ Float64.div (Float64.ofInt 1) (Float64.ofInt 0) = Float64.inf false
      ∧ Float64.div (Float64.ofInt (-1)) (Float64.ofInt 0) = Float64.inf true
      ∧ Float64.div (Float64.ofInt 0) (Float64.ofInt 0) = Float64.nan
      ∧ Float64.mul Float64.nan (Float64.ofInt 100) = Float64.nan := by
  set_option maxRecDepth 4000 in decide

/-- The header of the standard logger: fields are padded with zeros to their width. -/
theorem formatHeader_checks :
    formatHeader { year := 2023, month := 11, day := 14, hour := 22, min := 13, sec := 20 }
        = "2023/11/14 22:13:20 "
      ∧ formatHeader { year := 2024, month := 1, day := 2, hour := 3, min := 4, sec := 5 }
        = "2024/01/02 03:04:05 "
      ∧ terminated "Published active sessions: 450" = "Published active sessions: 450\n"
      ∧ terminated "two\nlines\n" = "two\nlines\n" := by
  decide

/-- The rate computed by `ExampleUsage`: 450 / 1000 rounds to the binary64 value
nearest 0.45, and its product with 100 rounds to 45. -/
theorem exampleRate_eval :
    Float64.mul (Float64.div (Float64.ofInt 450) (Float64.ofInt 1000)) (Float64.ofInt 100)
      = Float64.fin false 6333186975989760 (-47) := by
  set_option maxRecDepth 4000 in decide

/-! ## The claims -/

/-- C1: for every publisher, every float64 rate `r` (NaN, negative and
out-of-range values included) and every world, `PublishUserEngagement(r)` takes
one clock reading and submits exactly one request: its namespace is the
publisher's, its metric data is the single datum named "UserEngagement" with
unit "Percent", value `r` and the clock reading as timestamp. -/
theorem PublishUserEngagement_submits {ε : Type} (env : Env ε) (m : CloudWatchMetrics)
    (r : Float64) (w : World) :
    (PublishUserEngagement env m r w).2.2.sent
        = w.sent ++ [
            { Namespace := some m.«namespace»
              MetricData := [
                { MetricName := some "UserEngagement"
                  Value := some r
                  Unit := some "Percent"
                  Timestamp := some (env.clock w.reads) }] }]
      ∧ (PublishUserEngagement env m r w).2.2.reads = w.reads + 1 := by
  simp only [PublishUserEngagement, timeNow, PutMetricData, logPrintf]
  split <;> simp_all

/-- C2: for every publisher, every integer `n` (negative ones included) and every
world, `PublishActiveSessions(n)` submits exactly one request: its namespace is
the publisher's, its metric data is the single datum named "ActiveSessions" with
unit "Count" and value `float64(n)`. -/
theorem PublishActiveSessions_submits {ε : Type} (env : Env ε) (m : CloudWatchMetrics)
    (n : Int) (w : World) :
    (PublishActiveSessions env m n w).2.2.sent
        = w.sent ++ [
            { Namespace := some m.«namespace»
              MetricData := [
                { MetricName := some "ActiveSessions"
                  Value := some (Float64.ofInt n)
                  Unit := some "Count"
                  Timestamp := some (env.clock w.reads) }] }]
      ∧ (PublishActiveSessions env m n w).2.2.reads = w.reads + 1 := by
  simp only [PublishActiveSessions, timeNow, PutMetricData, logPrintf]
  split <;> simp_all

/-- C3: each publish method returns exactly what the backend answered to the
request it submitted: nil if and only if the backend returned no error, and the
backend's error `e` itself, unwrapped, when it returned one. -/
theorem publish_returns_backend_error {ε : Type} (env : Env ε) (m : CloudWatchMetrics)
    (r : Float64) (n : Int) (w : World) :
    (∃ req, (PublishUserEngagement env m r w).2.2.sent = w.sent ++ [req]
        ∧ (PublishUserEngagement env m r w).1 = env.respond m.client w.sent req
        ∧ ((PublishUserEngagement env m r w).1 = none ↔ env.respond m.client w.sent req = none)
        ∧ ∀ e, env.respond m.client w.sent req = some e
            → (PublishUserEngagement env m r w).1 = some e)
      ∧ (∃ req, (PublishActiveSessions env m n w).2.2.sent = w.sent ++ [req]
        ∧ (PublishActiveSessions env m n w).1 = env.respond m.client w.sent req
        ∧ ((PublishActiveSessions env m n w).1 = none ↔ env.respond m.client w.sent req = none)
        ∧ ∀ e, env.respond m.client w.sent req = some e
            → (PublishActiveSessions env m n w).1 = some e) := by
  constructor
  · refine ⟨Call.request m.«namespace» (.userEngagement r) (env.clock w.reads), ?_⟩
    simp only [PublishUserEngagement, timeNow, PutMetricData, logPrintf, Call.request]
    split <;> simp_all
  · refine ⟨Call.request m.«namespace» (.activeSessions n) (env.clock w.reads), ?_⟩
    simp only [PublishActiveSessions, timeNow, PutMetricData, logPrintf, Call.request]
    split <;> simp_all

/-- C4: for every method string other than "session_based", "activity_based"
and "retention_based", `CalculateEngagement` returns 0 (positive zero), whatever
the data-retrieval functions are. -/
theorem CalculateEngagement_unknown_method (src : DataSources) (method : String)
    (h₁ : method ≠ "session_based") (h₂ : method ≠ "activity_based")
    (h₃ : method ≠ "retention_based") :
    CalculateEngagementWith src method = Float64.fin false 0 (-1074)
      ∧ CalculateEngagement method = Float64.fin false 0 (-1074) := by
  have h0 : Float64.ofInt 0 = Float64.fin false 0 (-1074) := by decide
  simp [CalculateEngagement, CalculateEngagementWith, h₁, h₂, h₃, h0]

/-- Witness of C4 at "unknown_method", the empty string and "Session_Based". -/
theorem CalculateEngagement_unknown_method_witness :
    CalculateEngagement "unknown_method" = Float64.fin false 0 (-1074)
      ∧ CalculateEngagement "" = Float64.fin false 0 (-1074)
      ∧ CalculateEngagement "Session_Based" = Float64.fin false 0 (-1074) :=
  ⟨(CalculateEngagement_unknown_method placeholders "unknown_method"
      (by decide) (by decide) (by decide)).2,
   (CalculateEngagement_unknown_method placeholders ""
      (by decide) (by decide) (by decide)).2,
   (CalculateEngagement_unknown_method placeholders "Session_Based"
      (by decide) (by decide) (by decide)).2⟩

/-- C5, as stated, fails: with the placeholder functions both counts are 0 and
`CalculateEngagement("session_based")` is NaN, which is not a zero. -/
theorem CalculateEngagement_session_based_not_zero :
    CalculateEngagement "session_based" ≠ Float64.ofInt 0
      ∧ Float64.isZero (CalculateEngagement "session_based") = false
      ∧ Float64.isNaN (CalculateEngagement "session_based") = true := by
  decide

/-- C5, amended: when both underlying counts are 0, the "session_based" branch
returns NaN, the float64 quotient 0 / 0 multiplied by 100. -/
theorem CalculateEngagement_session_based_zero_counts (src : DataSources)
    (h₁ : src.getActiveSessionsLastHour = 0) (h₂ : src.getDailyActiveUsers = 0) :
    CalculateEngagementWith src "session_based" = Float64.nan := by
  have h0 : Float64.mul (Float64.div (Float64.ofInt 0) (Float64.ofInt 0)) (Float64.ofInt 100)
      = Float64.nan := by decide
  simp [CalculateEngagementWith, h₁, h₂, h0]

/-- Witness of the amended C5 at the placeholder functions of the source. -/
theorem CalculateEngagement_session_based_zero_counts_witness :
    placeholders.getActiveSessionsLastHour = 0 ∧ placeholders.getDailyActiveUsers = 0
      ∧ CalculateEngagement "session_based" = Float64.nan :=
  ⟨rfl, rfl, CalculateEngagement_session_based_zero_counts placeholders rfl rfl⟩

/-- C6: over any six data-retrieval functions, each method name selects its own
formula and its own pair of sources; the window of "retention_based" is
`7 * 24 * time.Hour`, that is 604800 seconds in nanoseconds. -/
theorem CalculateEngagement_dispatch (src : DataSources) :
    CalculateEngagementWith src "session_based"
        = Float64.mul
            (Float64.div (Float64.ofInt src.getActiveSessionsLastHour)
              (Float64.ofInt src.getDailyActiveUsers))
            (Float64.ofInt 100)
      ∧ CalculateEngagementWith src "activity_based"
        = Float64.mul
            (Float64.div
              (Float64.ofInt (src.getUsersWithActions
                ["submitted_feedback", "created_profile", "uploaded_content"]))
              (Float64.ofInt src.getTotalActiveUsers))
            (Float64.ofInt 100)
      ∧ CalculateEngagementWith src "retention_based"
        = Float64.mul
            (Float64.div (Float64.ofInt (src.getReturningUsers (7 * 24 * Hour)))
              (Float64.ofInt src.getTotalUsers))
            (Float64.ofInt 100)
      ∧ 7 * 24 * Hour = (604800 * 1000000000 : Int) := by
  refine ⟨?_, ?_, ?_, by decide⟩ <;> simp [CalculateEngagementWith]

/-- C7: in `ExampleUsage`, with totalUsers = 1000 and activeUsers = 450, the rate
`(float64(450) / float64(1000)) * 100` is the binary64 value 45 exactly, and,
once the session is established, the run is `PublishUserEngagement` called with
that value followed by `PublishActiveSessions(450)`. -/
theorem ExampleUsage_engagementRate {ε : Type} (env : Env ε) (sess : Session)
    (h : env.newSession = .ok sess) (w : World) :
    Float64.mul (Float64.div (Float64.ofInt 450) (Float64.ofInt 1000)) (Float64.ofInt 100)
        = Float64.fin false 6333186975989760 (-47)
      ∧ Float64.toRat? (Float64.fin false 6333186975989760 (-47)) = some 45
      ∧ ExampleUsage env w
        = .ok (PublishActiveSessions env
            { client := { sess := sess }, «namespace» := "AmygdalaBeta/Staging" } 450
            (PublishUserEngagement env
              { client := { sess := sess }, «namespace» := "AmygdalaBeta/Staging" }
              (Float64.fin false 6333186975989760 (-47)) w).2.2).2.2 := by
  refine ⟨exampleRate_eval, ?_, ?_⟩
  · simp only [Float64.toRat?]
    norm_num
  · have hm : (PublishUserEngagement env
        { client := { sess := sess }, «namespace» := "AmygdalaBeta/Staging" }
        (Float64.fin false 6333186975989760 (-47)) w).2.1
          = { client := { sess := sess }, «namespace» := "AmygdalaBeta/Staging" } :=
      (Call.run_spec env _ (.userEngagement _) w).2.1
    simp only [ExampleUsage, NewCloudWatchMetrics, h, exampleRate_eval, hm]

/-- Witness of C7 at the sample environment, from the initial world. -/
theorem ExampleUsage_engagementRate_witness :
    flakyEnv.newSession = .ok { id := 0 }
      ∧ ExampleUsage flakyEnv World.initial
        = .ok (PublishActiveSessions flakyEnv
            { client := { sess := { id := 0 } }, «namespace» := "AmygdalaBeta/Staging" } 450
            (PublishUserEngagement flakyEnv
              { client := { sess := { id := 0 } }, «namespace» := "AmygdalaBeta/Staging" }
              (Float64.fin false 6333186975989760 (-47)) World.initial).2.2).2.2 :=
  ⟨rfl, (ExampleUsage_engagementRate flakyEnv { id := 0 } rfl World.initial).2.2⟩

/-- C8, as stated, fails. In the sample environment the first call of
`PublishUserEngagement` fails: during its one call of `PutMetricData` the SDK
sent four HTTP requests, and the one entry written begins with the date, not
with "Failed to publish". The following call of `PublishActiveSessions`
succeeds, and the one entry written does not begin with "Published". -/
theorem publish_log_line_counterexample :
    (PublishUserEngagement flakyEnv
        { client := { sess := { id := 0 } }, «namespace» := "AmygdalaBeta/Staging" }
        (Float64.fin false 6333186975989760 (-47)) World.initial).1 = some "Throttling"
      ∧ (PublishUserEngagement flakyEnv
          { client := { sess := { id := 0 } }, «namespace» := "AmygdalaBeta/Staging" }
          (Float64.fin false 6333186975989760 (-47)) World.initial).2.2.httpRequests = 4
      ∧ (PublishUserEngagement flakyEnv
          { client := { sess := { id := 0 } }, «namespace» := "AmygdalaBeta/Staging" }
          (Float64.fin false 6333186975989760 (-47)) World.initial).2.2.logs
        = ["2023/11/14 22:13:20 Failed to publish user engagement metric: Throttling\n"]
      ∧ (¬ ∃ line rest,
          (PublishUserEngagement flakyEnv
            { client := { sess := { id := 0 } }, «namespace» := "AmygdalaBeta/Staging" }
            (Float64.fin false 6333186975989760 (-47)) World.initial).2.2.logs
              = World.initial.logs ++ [line]
            ∧ line = "Failed to publish" ++ rest)
      ∧ (PublishActiveSessions flakyEnv
          { client := { sess := { id := 0 } }, «namespace» := "AmygdalaBeta/Staging" } 450
          (PublishUserEngagement flakyEnv
            { client := { sess := { id := 0 } }, «namespace» := "AmygdalaBeta/Staging" }
            (Float64.fin false 6333186975989760 (-47)) World.initial).2.2).1 = none
      ∧ (PublishActiveSessions flakyEnv
          { client := { sess := { id := 0 } }, «namespace» := "AmygdalaBeta/Staging" } 450
          (PublishUserEngagement flakyEnv
            { client := { sess := { id := 0 } }, «namespace» := "AmygdalaBeta/Staging" }
            (Float64.fin false 6333186975989760 (-47)) World.initial).2.2).2.2.logs
        = ["2023/11/14 22:13:20 Failed to publish user engagement metric: Throttling\n",
           "2023/11/14 22:13:20 Published active sessions: 450\n"]
      ∧ ¬ ∃ rest, "2023/11/14 22:13:20 Published active sessions: 450\n"
          = "Published" ++ rest := by
  have hlogs : (PublishUserEngagement flakyEnv
      { client := { sess := { id := 0 } }, «namespace» := "AmygdalaBeta/Staging" }
      (Float64.fin false 6333186975989760 (-47)) World.initial).2.2.logs
        = ["2023/11/14 22:13:20 Failed to publish user engagement metric: Throttling\n"] := by
    decide
  refine ⟨by decide, by decide, hlogs, ?_, by decide, by decide, ?_⟩
  · rintro ⟨line, rest, h₁, h₂⟩
    rw [hlogs] at h₁
    simp only [World.initial, List.nil_append, List.cons.injEq, and_true] at h₁
    rw [← h₁] at h₂
    have h₃ := congrArg (fun t : String => t.data.head?) h₂
    simp at h₃
  · rintro ⟨rest, h₂⟩
    have h₃ := congrArg (fun t : String => t.data.head?) h₂
    simp at h₃

/-- C8, amended: one invocation of either publish method calls `PutMetricData`
exactly once, whatever it answers (the method does not call it again after a
failure; the HTTP requests sent during that call are those of the SDK, as many
as its retryer makes), and calls `log.Printf` exactly once: the message begins
"Failed to publish" when the call returned an error and "Published" when it did
not, and the entry written is the date and time header of the standard logger,
the message, and a newline if the message does not end in one. -/
theorem publish_one_call_one_log_entry {ε : Type} (env : Env ε) (m : CloudWatchMetrics)
    (r : Float64) (n : Int) (w : World) :
    (∃ req msg, (PublishUserEngagement env m r w).2.2.sent = w.sent ++ [req]
        ∧ (PublishUserEngagement env m r w).2.2.httpRequests
            = w.httpRequests + env.attempts m.client w.sent req
        ∧ (PublishUserEngagement env m r w).2.2.logs
            = w.logs ++ [formatHeader (env.logTime w.logs.length) ++ terminated msg]
        ∧ (env.respond m.client w.sent req ≠ none → ∃ rest, msg = "Failed to publish" ++ rest)
        ∧ (env.respond m.client w.sent req = none → ∃ rest, msg = "Published" ++ rest))
      ∧ (∃ req msg, (PublishActiveSessions env m n w).2.2.sent = w.sent ++ [req]
        ∧ (PublishActiveSessions env m n w).2.2.httpRequests
            = w.httpRequests + env.attempts m.client w.sent req
        ∧ (PublishActiveSessions env m n w).2.2.logs
            = w.logs ++ [formatHeader (env.logTime w.logs.length) ++ terminated msg]
        ∧ (env.respond m.client w.sent req ≠ none → ∃ rest, msg = "Failed to publish" ++ rest)
        ∧ (env.respond m.client w.sent req = none → ∃ rest, msg = "Published" ++ rest)) := by
  have hf₁ : "Failed to publish user engagement metric: "
      = "Failed to publish" ++ " user engagement metric: " := by decide
  have hp₁ : "Published user engagement: " = "Published" ++ " user engagement: " := by decide
  have hf₂ : "Failed to publish active sessions metric: "
      = "Failed to publish" ++ " active sessions metric: " := by decide
  have hp₂ : "Published active sessions: " = "Published" ++ " active sessions: " := by decide
  constructor
  · cases hresp : env.respond m.client w.sent
        (Call.request m.«namespace» (.userEngagement r) (env.clock w.reads)) with
    | none =>
      refine ⟨Call.request m.«namespace» (.userEngagement r) (env.clock w.reads),
        "Published user engagement: " ++ env.fmtFloat2 r ++ "%", ?_, ?_, ?_, ?_, ?_⟩
      · simp [PublishUserEngagement, timeNow, PutMetricData, logPrintf, Call.request] at hresp ⊢
        rw [hresp]
      · simp [PublishUserEngagement, timeNow, PutMetricData, logPrintf, Call.request] at hresp ⊢
        rw [hresp]
      · simp [PublishUserEngagement, timeNow, PutMetricData, logPrintf, Call.request] at hresp ⊢
        rw [hresp]
      · intro hne; exact absurd hresp hne
      · intro _
        exact ⟨" user engagement: " ++ env.fmtFloat2 r ++ "%", by
          rw [hp₁, String.append_assoc, String.append_assoc, String.append_assoc]⟩
    | some e =>
      refine ⟨Call.request m.«namespace» (.userEngagement r) (env.clock w.reads),
        "Failed to publish user engagement metric: " ++ env.errorText e, ?_, ?_, ?_, ?_, ?_⟩
      · simp [PublishUserEngagement, timeNow, PutMetricData, logPrintf, Call.request] at hresp ⊢
        rw [hresp]
      · simp [PublishUserEngagement, timeNow, PutMetricData, logPrintf, Call.request] at hresp ⊢
        rw [hresp]
      · simp [PublishUserEngagement, timeNow, PutMetricData, logPrintf, Call.request] at hresp ⊢
        rw [hresp]
      · intro _
        exact ⟨" user engagement metric: " ++ env.errorText e, by
          rw [hf₁, String.append_assoc]⟩
      · intro hn; rw [hresp] at hn; exact absurd hn (by simp)
  · cases hresp : env.respond m.client w.sent
        (Call.request m.«namespace» (.activeSessions n) (env.clock w.reads)) with
    | none =>
      refine ⟨Call.request m.«namespace» (.activeSessions n) (env.clock w.reads),
        "Published active sessions: " ++ toString n, ?_, ?_, ?_, ?_, ?_⟩
      · simp [PublishActiveSessions, timeNow, PutMetricData, logPrintf, Call.request] at hresp ⊢
        rw [hresp]
      · simp [PublishActiveSessions, timeNow, PutMetricData, logPrintf, Call.request] at hresp ⊢
        rw [hresp]
      · simp [PublishActiveSessions, timeNow, PutMetricData, logPrintf, Call.request] at hresp ⊢
        rw [hresp]
      · intro hne; exact absurd hresp hne
      · intro _
        exact ⟨" active sessions: " ++ toString n, by rw [hp₂, String.append_assoc]⟩
    | some e =>
      refine ⟨Call.request m.«namespace» (.activeSessions n) (env.clock w.reads),
        "Failed to publish active sessions metric: " ++ env.errorText e, ?_, ?_, ?_, ?_, ?_⟩
      · simp [PublishActiveSessions, timeNow, PutMetricData, logPrintf, Call.request] at hresp ⊢
        rw [hresp]
      · simp [PublishActiveSessions, timeNow, PutMetricData, logPrintf, Call.request] at hresp ⊢
        rw [hresp]
      · simp [PublishActiveSessions, timeNow, PutMetricData, logPrintf, Call.request] at hresp ⊢
        rw [hresp]
      · intro _
        exact ⟨" active sessions metric: " ++ env.errorText e, by
          rw [hf₂, String.append_assoc]⟩
      · intro hn; rw [hresp] at hn; exact absurd hn (by simp)

/-- C9: once the session is established, `NewCloudWatchMetrics(ns)` returns a
publisher with namespace `ns`, and after every sequence of publish calls, from
every world and whatever the backend answers, the publisher (namespace and
client) is the one constructed, every request submitted carries `ns`, and the
error a further call returns is the backend's answer to the request built from
`ns`, that call's argument and the clock reading: nothing of the earlier calls
is retained by the publisher. -/
theorem publisher_not_mutated {ε : Type} (env : Env ε) (ns : String) (sess : Session)
    (h : env.newSession = .ok sess) :
    ∃ m, NewCloudWatchMetrics env ns = .ok m
      ∧ m.«namespace» = ns
      ∧ m.client = { sess := sess }
      ∧ ∀ (cs : List Call) (w : World),
          (runCalls env m cs w).2.1 = m
            ∧ (runCalls env m cs w).1.length = cs.length
            ∧ (runCalls env m cs w).2.2.sent = w.sent ++ requestsFrom env ns w.reads cs
            ∧ (requestsFrom env ns w.reads cs).length = cs.length
            ∧ (∀ req ∈ requestsFrom env ns w.reads cs, req.Namespace = some ns)
            ∧ ∀ (c : Call),
                (Call.run env (runCalls env m cs w).2.1 c (runCalls env m cs w).2.2).1
                    = env.respond { sess := sess } (runCalls env m cs w).2.2.sent
                        (Call.request ns c (env.clock (w.reads + cs.length)))
                  ∧ (Call.run env (runCalls env m cs w).2.1 c (runCalls env m cs w).2.2).2.1
                    = m := by
  refine ⟨{ client := { sess := sess }, «namespace» := ns }, ?_, rfl, rfl, ?_⟩
  · simp only [NewCloudWatchMetrics, h]
  · intro cs w
    obtain ⟨h₁, h₂, h₃, h₄⟩ :=
      runCalls_spec env { client := { sess := sess }, «namespace» := ns } cs w
    refine ⟨h₁, h₄, h₃, requestsFrom_length env ns cs w.reads,
      requestsFrom_namespace env ns cs w.reads, ?_⟩
    intro c
    obtain ⟨g₁, g₂, _, _⟩ := Call.run_spec env
      { client := { sess := sess }, «namespace» := ns } c
      (runCalls env { client := { sess := sess }, «namespace» := ns } cs w).2.2
    rw [h₂] at g₁
    rw [h₁]
    exact ⟨g₁, g₂⟩

/-- Witness of C9 at the sample environment: a failing call followed by a
succeeding one leaves the publisher as constructed. -/
theorem publisher_not_mutated_witness :
    flakyEnv.newSession = .ok { id := 0 }
      ∧ ∃ m, NewCloudWatchMetrics flakyEnv "AmygdalaBeta/Staging" = .ok m
          ∧ m.«namespace» = "AmygdalaBeta/Staging"
          ∧ (runCalls flakyEnv m [.userEngagement Float64.nan, .activeSessions (-3)]
              World.initial).2.1 = m :=
  ⟨rfl,
    match publisher_not_mutated flakyEnv "AmygdalaBeta/Staging" { id := 0 } rfl with
    | ⟨m, h₁, h₂, _, h₄⟩ =>
      ⟨m, h₁, h₂, (h₄ [.userEngagement Float64.nan, .activeSessions (-3)] World.initial).1⟩⟩

/-- C10: once the session is established, `ExampleUsage` returns normally and
submits exactly two requests, whatever the backend answers to either: first the
"UserEngagement" datum (value 45), then the "ActiveSessions" datum with value
`float64(450)`, both under namespace "AmygdalaBeta/Staging". -/
theorem ExampleUsage_two_requests {ε : Type} (env : Env ε) (sess : Session)
    (h : env.newSession = .ok sess) (w : World) :
    ∃ w', ExampleUsage env w = .ok w'
      ∧ w'.sent = w.sent ++ [
          { Namespace := some "AmygdalaBeta/Staging"
            MetricData := [
              { MetricName := some "UserEngagement"
                Value := some (Float64.fin false 6333186975989760 (-47))
                Unit := some "Percent"
                Timestamp := some (env.clock w.reads) }] },
          { Namespace := some "AmygdalaBeta/Staging"
            MetricData := [
              { MetricName := some "ActiveSessions"
                Value := some (Float64.ofInt 450)
                Unit := some "Count"
                Timestamp := some (env.clock (w.reads + 1)) }] }]
      ∧ Float64.toRat? (Float64.ofInt 450) = some 450 := by
  obtain ⟨_, hm, hr, hs⟩ := Call.run_spec env
    { client := { sess := sess }, «namespace» := "AmygdalaBeta/Staging" }
    (.userEngagement (Float64.fin false 6333186975989760 (-47))) w
  obtain ⟨_, _, _, hs'⟩ := Call.run_spec env
    { client := { sess := sess }, «namespace» := "AmygdalaBeta/Staging" }
    (.activeSessions 450)
    (PublishUserEngagement env
      { client := { sess := sess }, «namespace» := "AmygdalaBeta/Staging" }
      (Float64.fin false 6333186975989760 (-47)) w).2.2
  simp only [Call.run, Call.request] at hm hr hs hs'
  refine ⟨(PublishActiveSessions env
    { client := { sess := sess }, «namespace» := "AmygdalaBeta/Staging" } 450
    (PublishUserEngagement env
      { client := { sess := sess }, «namespace» := "AmygdalaBeta/Staging" }
      (Float64.fin false 6333186975989760 (-47)) w).2.2).2.2, ?_, ?_, ?_⟩
  · simp only [ExampleUsage, NewCloudWatchMetrics, h, exampleRate_eval, hm]
  · rw [hs', hs, hr, List.append_assoc]; rfl
  · have h450 : Float64.ofInt 450 = Float64.fin false 7916483719987200 (-44) := by decide
    rw [h450]
    simp only [Float64.toRat?]
    norm_num

/-- Witness of C10 at the sample environment, whose backend rejects the first
request: both requests are submitted all the same. -/
theorem ExampleUsage_two_requests_witness :
    flakyEnv.newSession = .ok { id := 0 }
      ∧ flakyEnv.respond { sess := { id := 0 } } []
          { Namespace := some "AmygdalaBeta/Staging"
            MetricData := [
              { MetricName := some "UserEngagement"
                Value := some (Float64.fin false 6333186975989760 (-47))
                Unit := some "Percent"
                Timestamp := some 1700000000000000000 }] } = some "Throttling"
      ∧ ∃ w', ExampleUsage flakyEnv World.initial = .ok w'
          ∧ w'.sent = [
              { Namespace := some "AmygdalaBeta/Staging"
                MetricData := [
                  { MetricName := some "UserEngagement"
                    Value := some (Float64.fin false 6333186975989760 (-47))
                    Unit := some "Percent"
                    Timestamp := some 1700000000000000000 }] },
              { Namespace := some "AmygdalaBeta/Staging"
                MetricData := [
                  { MetricName := some "ActiveSessions"
                    Value := some (Float64.ofInt 450)
                    Unit := some "Count"
                    Timestamp := some 1700000000000000001 }] }] :=
  ⟨rfl, rfl,
    match ExampleUsage_two_requests flakyEnv { id := 0 } rfl World.initial with
    | ⟨w', h₁, h₂, _⟩ => ⟨w', h₁, h₂⟩⟩

end CloudwatchMetrics
